import Mathlib

/-!
Verification of the client-side cache-key and query-orchestration layer of a
React Query demo application, shallowly embedded in Lean 4.

The embedding covers:
- the Key Builder (src/hooks/queries/queryKeys.ts), as pure list-building
  functions over a segment type;
- the Resource Client (src/services/api.ts), as a function from an abstract
  transport to a success value or a JavaScript error object;
- the View Layer search filter, selection toggle and PostCard rendering
  (src/components/PostsList.tsx, src/components/PostCard.tsx);
- the orchestration behavior of the caching library (which is a third-party
  dependency, not part of the repository), modelled from the specification
  where a claim depends on it.
-/

/-- A segment of an Entity Key: the source keys mix string literals, numeric
identifiers and a filter-wrapping object. The type of filter records is kept
abstract as a parameter F, so statements quantify over every filters object. -/
inductive Segment (F : Type) where
  | str : String → Segment F
  | num : Int → Segment F
  | filterObj : F → Segment F
deriving DecidableEq

namespace queryKeys

namespace posts

variable {F : Type}

/-- Base key for all posts-related queries, source value ['posts']. -/
def all : List (Segment F) := [Segment.str "posts"]

/-- Key for lists of posts, source value [...all, 'list']. -/
def lists : List (Segment F) := all ++ [Segment.str "list"]

/-- Key for a filtered list of posts, source value [...lists(), { filters }]. -/
def list (filters : F) : List (Segment F) := lists ++ [Segment.filterObj filters]

/-- Key for post details, source value [...all, 'detail']. -/
def details : List (Segment F) := all ++ [Segment.str "detail"]

/-- Key for a specific post's details, source value [...details(), id]. -/
def detail (id : Int) : List (Segment F) := details ++ [Segment.num id]

/-- Key for comments on a specific post, source value [...detail(postId), 'comments']. -/
def comments (postId : Int) : List (Segment F) := detail postId ++ [Segment.str "comments"]

end posts

namespace users

variable {F : Type}

/-- Base key for all users-related queries, source value ['users']. -/
def all : List (Segment F) := [Segment.str "users"]

/-- Key for lists of users, source value [...all, 'list']. -/
def lists : List (Segment F) := all ++ [Segment.str "list"]

/-- Key for user details, source value [...all, 'detail']. -/
def details : List (Segment F) := all ++ [Segment.str "detail"]

/-- Key for a specific user's details, source value [...details(), id]. -/
def detail (id : Int) : List (Segment F) := details ++ [Segment.num id]

end users

end queryKeys

/-- A key strictly extends a parent key when it is the parent followed by at
least one further segment (a proper prefix relationship, child side). -/
def strictExtends {α : Type} (child parent : List α) : Prop :=
  ∃ rest, rest ≠ [] ∧ child = parent ++ rest

/-- A key extends a parent key (possibly trivially): the parent is a prefix of
it, equality included. -/
def extendsKey {α : Type} (child parent : List α) : Prop :=
  ∃ rest, child = parent ++ rest

/-- The keys a caller can build under the posts namespace of the Key Builder. -/
inductive PostsKeySpec (F : Type) where
  | all
  | lists
  | list (filters : F)
  | details
  | detail (id : Int)
  | comments (postId : Int)

/-- The keys a caller can build under the users namespace of the Key Builder. -/
inductive UsersKeySpec where
  | all
  | lists
  | details
  | detail (id : Int)

/-- Interpretation of a posts key description through the Key Builder. -/
def buildPostsKey {F : Type} : PostsKeySpec F → List (Segment F)
  | .all => queryKeys.posts.all
  | .lists => queryKeys.posts.lists
  | .list f => queryKeys.posts.list f
  | .details => queryKeys.posts.details
  | .detail id => queryKeys.posts.detail id
  | .comments postId => queryKeys.posts.comments postId

/-- Interpretation of a users key description through the Key Builder. -/
def buildUsersKey {F : Type} : UsersKeySpec → List (Segment F)
  | .all => queryKeys.users.all
  | .lists => queryKeys.users.lists
  | .details => queryKeys.users.details
  | .detail id => queryKeys.users.detail id

lemma extendsKey_head {α : Type} {c p : List α} {a : α}
    (hp : p.head? = some a) (h : extendsKey c p) : c.head? = some a := by
  obtain ⟨rest, rfl⟩ := h
  cases p with
  | nil => simp at hp
  | cons x xs => simpa using hp

lemma buildPostsKey_head {F : Type} (pk : PostsKeySpec F) :
    (buildPostsKey pk).head? = some (Segment.str "posts") := by
  cases pk <;> rfl

lemma buildUsersKey_head (F : Type) (uk : UsersKeySpec) :
    (buildUsersKey uk : List (Segment F)).head? = some (Segment.str "users") := by
  cases uk <;> rfl

/-- C1: every key produced by the Key Builder for a sub-resource strictly
extends its parent's key: lists() extends all, list(filters) extends lists(),
details() extends all, detail(id) extends details(), and comments(postId)
extends detail(postId), for both the posts and users namespaces, for every
filters object and every identifier. -/
theorem C1_key_hierarchy_strict_extension (F : Type) (filters : F) (id postId : Int) :
    strictExtends (queryKeys.posts.lists : List (Segment F)) queryKeys.posts.all
    ∧ strictExtends (queryKeys.posts.list filters) queryKeys.posts.lists
    ∧ strictExtends (queryKeys.posts.details : List (Segment F)) queryKeys.posts.all
    ∧ strictExtends (queryKeys.posts.detail id : List (Segment F)) queryKeys.posts.details
    ∧ strictExtends (queryKeys.posts.comments postId : List (Segment F))
        (queryKeys.posts.detail postId)
    ∧ strictExtends (queryKeys.users.lists : List (Segment F)) queryKeys.users.all
    ∧ strictExtends (queryKeys.users.details : List (Segment F)) queryKeys.users.all
    ∧ strictExtends (queryKeys.users.detail id : List (Segment F)) queryKeys.users.details :=
  ⟨⟨[Segment.str "list"], by simp, rfl⟩,
   ⟨[Segment.filterObj filters], by simp, rfl⟩,
   ⟨[Segment.str "detail"], by simp, rfl⟩,
   ⟨[Segment.num id], by simp, rfl⟩,
   ⟨[Segment.str "comments"], by simp, rfl⟩,
   ⟨[Segment.str "list"], by simp, rfl⟩,
   ⟨[Segment.str "detail"], by simp, rfl⟩,
   ⟨[Segment.num id], by simp, rfl⟩⟩

/-- C2: for every pair of distinct identifiers the posts detail keys differ and
the users detail keys differ, and each detail key strictly extends the
corresponding details key. -/
theorem C2_detail_keys_injective (F : Type) (id1 id2 : Int) (h : id1 ≠ id2) :
    (queryKeys.posts.detail id1 : List (Segment F)) ≠ queryKeys.posts.detail id2
    ∧ (queryKeys.users.detail id1 : List (Segment F)) ≠ queryKeys.users.detail id2
    ∧ strictExtends (queryKeys.posts.detail id1 : List (Segment F)) queryKeys.posts.details
    ∧ strictExtends (queryKeys.posts.detail id2 : List (Segment F)) queryKeys.posts.details
    ∧ strictExtends (queryKeys.users.detail id1 : List (Segment F)) queryKeys.users.details
    ∧ strictExtends (queryKeys.users.detail id2 : List (Segment F)) queryKeys.users.details := by
  refine ⟨?_, ?_, ⟨[Segment.num id1], by simp, rfl⟩, ⟨[Segment.num id2], by simp, rfl⟩,
    ⟨[Segment.num id1], by simp, rfl⟩, ⟨[Segment.num id2], by simp, rfl⟩⟩
  · intro hEq
    exact h (by simpa [queryKeys.posts.detail, queryKeys.posts.details,
      queryKeys.posts.all] using hEq)
  · intro hEq
    exact h (by simpa [queryKeys.users.detail, queryKeys.users.details,
      queryKeys.users.all] using hEq)

/-- Witness for C2 at the concrete identifiers 1 and 2 with trivial filters. -/
theorem C2_detail_keys_injective_witness :
    (1 : Int) ≠ 2
    ∧ ((queryKeys.posts.detail 1 : List (Segment Unit)) ≠ queryKeys.posts.detail 2
      ∧ (queryKeys.users.detail 1 : List (Segment Unit)) ≠ queryKeys.users.detail 2
      ∧ strictExtends (queryKeys.posts.detail 1 : List (Segment Unit)) queryKeys.posts.details
      ∧ strictExtends (queryKeys.posts.detail 2 : List (Segment Unit)) queryKeys.posts.details
      ∧ strictExtends (queryKeys.users.detail 1 : List (Segment Unit)) queryKeys.users.details
      ∧ strictExtends (queryKeys.users.detail 2 : List (Segment Unit)) queryKeys.users.details) :=
  ⟨by decide, C2_detail_keys_injective Unit 1 2 (by decide)⟩

/-- C9: the posts and users key namespaces are disjoint: every posts key starts
with the segment posts, every users key starts with the segment users, and no
key of one namespace extends (is prefixed by, equality included) a key of the
other, so prefix invalidation of one entity type cannot affect the other. -/
theorem C9_namespaces_disjoint (F : Type) (pk : PostsKeySpec F) (uk : UsersKeySpec) :
    (buildPostsKey pk).head? = some (Segment.str "posts")
    ∧ (buildUsersKey uk : List (Segment F)).head? = some (Segment.str "users")
    ∧ ¬ extendsKey (buildPostsKey pk) (buildUsersKey uk : List (Segment F))
    ∧ ¬ extendsKey (buildUsersKey uk : List (Segment F)) (buildPostsKey pk) := by
  refine ⟨buildPostsKey_head pk, buildUsersKey_head F uk, ?_, ?_⟩
  · intro h
    have := extendsKey_head (buildUsersKey_head F uk) h
    rw [buildPostsKey_head pk] at this
    simp at this
  · intro h
    have := extendsKey_head (buildPostsKey_head pk) h
    rw [buildUsersKey_head F uk] at this
    simp at this

/-- A JSON value, the result of response.json(): the Resource Client performs
no shape validation, so a successful call yields whatever JSON the body held. -/
inductive Json where
  | null : Json
  | bool : Bool → Json
  | num : Int → Json
  | str : String → Json
  | arr : List Json → Json
  | obj : List (String × Json) → Json

/-- A JavaScript error object as thrown by the Resource Client: new Error(msg)
has name Error; a rejected fetch has name TypeError; a response.json() failure
on a syntactically invalid body has name SyntaxError. These are the only data
an Error carries here; there is no statusCode field. -/
structure JsError where
  name : String
  message : String
deriving DecidableEq

/-- An HTTP response as seen by fetch: a status code and a body. The body is
kept at the JSON level: none means the body text is not syntactically valid
JSON, so response.json() rejects. -/
structure HttpResponse where
  status : Nat
  body : Option Json

/-- The outcome of the underlying fetch call: a response, or a transport
failure (DNS, timeout, connection reset), which fetch surfaces as a rejected
promise carrying a TypeError. -/
inductive TransportResult where
  | response : HttpResponse → TransportResult
  | failure : String → TransportResult

/-- The response.ok flag of the Fetch API: status in the range 200 to 299. -/
def respOk (status : Nat) : Bool := decide (200 ≤ status ∧ status < 300)

/-- Base URL of the remote API, from src/services/api.ts. -/
def BASE_URL : String := "https://jsonplaceholder.typicode.com"

/-- The Resource Client src/services/api.ts fetchFromAPI, with the transport
passed explicitly: fetch BASE_URL plus endpoint; if the response is not ok,
throw new Error with the status interpolated into the message; otherwise
return response.json() (which only fails on syntactically invalid JSON and
checks nothing about the shape). -/
def fetchFromAPI (net : String → TransportResult) (endpoint : String) :
    Except JsError Json :=
  match net (BASE_URL ++ endpoint) with
  | TransportResult.failure msg => Except.error ⟨"TypeError", msg⟩
  | TransportResult.response resp =>
    if respOk resp.status then
      match resp.body with
      | some j => Except.ok j
      | none => Except.error ⟨"SyntaxError", "Unexpected token in JSON"⟩
    else
      Except.error ⟨"Error", "HTTP error! status: " ++ toString resp.status⟩

/-- The postsAPI.getPosts wrapper from src/services/api.ts. -/
def postsAPI.getPosts (net : String → TransportResult) : Except JsError Json :=
  fetchFromAPI net "/posts"

/-- The postsAPI.getPost wrapper from src/services/api.ts. -/
def postsAPI.getPost (net : String → TransportResult) (id : Int) : Except JsError Json :=
  fetchFromAPI net ("/posts/" ++ toString id)

/-- Field lookup in a JSON object literal. -/
def lookupField : List (String × Json) → String → Option Json
  | [], _ => none
  | (k, v) :: rest, key => if k = key then some v else lookupField rest key

/-- Modelled from the spec: the Post record shape declared in
src/services/types.ts, which is not in the repository: a Post is an object
with integer id and userId and string title and body. -/
def isPostShape : Json → Bool
  | Json.obj fields =>
    (match lookupField fields "id" with | some (Json.num _) => true | _ => false)
    && (match lookupField fields "userId" with | some (Json.num _) => true | _ => false)
    && (match lookupField fields "title" with | some (Json.str _) => true | _ => false)
    && (match lookupField fields "body" with | some (Json.str _) => true | _ => false)
  | _ => false

/-- Modelled from the spec: the expected structured type of the posts list
endpoint, an array of Post records. -/
def isPostListShape : Json → Bool
  | Json.arr xs => xs.all isPostShape
  | _ => false

/-- Observable state of a query from the consumer's point of view. -/
structure QueryObs (T : Type) where
  data : Option T
  isLoading : Bool
  isError : Bool
deriving DecidableEq

/-- Modelled from the spec: how a settled fetch outcome is exposed to the
consumer by the orchestration layer (the caching library, not in the
repository): success stores the data, failure sets the error indicator. -/
def applyFetch {E T : Type} (outcome : Except E T) : QueryObs T :=
  match outcome with
  | Except.ok v => ⟨some v, false, false⟩
  | Except.error _ => ⟨none, false, true⟩

/-- Modelled from the spec: the retry loop of the orchestration layer (the
caching library, not in the repository): on failure the producer is retried up
to the configured bound before the failure is surfaced. -/
def runWithRetries {E T : Type} : Nat → (Unit → Except E T) → Except E T
  | 0, producer => producer ()
  | n + 1, producer =>
    match producer () with
    | Except.ok v => Except.ok v
    | Except.error _ => runWithRetries n producer

lemma runWithRetries_const_error {E T : Type} (e : E) (producer : Unit → Except E T)
    (hp : producer () = Except.error e) :
    ∀ n, runWithRetries n producer = Except.error e := by
  intro n
  induction n with
  | zero => simpa [runWithRetries] using hp
  | succ k ih => simp [runWithRetries, hp, ih]

/-- A transport that always answers HTTP 500 with an empty JSON array body. -/
def net500 : String → TransportResult :=
  fun _ => TransportResult.response ⟨500, some (Json.arr [])⟩

/-- A transport that always answers HTTP 200 with a JSON body that is a bare
number, which does not match the Post list shape. -/
def netWrongShape : String → TransportResult :=
  fun _ => TransportResult.response ⟨200, some (Json.num 42)⟩

/-- Counterexample to C3 as stated: for the concrete 500 response on /posts the
Resource Client fails with a plain JavaScript Error whose message embeds the
status; its classification name is Error, not RequestError, and the error value
carries no structured status field, only name and message. -/
theorem C3_plain_error_counterexample :
    fetchFromAPI net500 "/posts"
      = Except.error ⟨"Error", "HTTP error! status: 500"⟩
    ∧ (⟨"Error", "HTTP error! status: 500"⟩ : JsError).name ≠ "RequestError" :=
  ⟨rfl, by decide⟩

/-- C3 amended: for every request whose HTTP response has a non-success status
code, the Resource Client fails with a plain Error whose message is the string
HTTP error! status: followed by the status code; the status is recoverable only
from that message, and after the orchestration layer exhausts any number of
retries the consumer observes isError true with that same error. -/
theorem C3_status_in_message (net : String → TransportResult) (endpoint : String)
    (resp : HttpResponse) (retries : Nat)
    (h1 : net (BASE_URL ++ endpoint) = TransportResult.response resp)
    (h2 : respOk resp.status = false) :
    fetchFromAPI net endpoint
      = Except.error ⟨"Error", "HTTP error! status: " ++ toString resp.status⟩
    ∧ runWithRetries retries (fun _ => fetchFromAPI net endpoint)
      = Except.error ⟨"Error", "HTTP error! status: " ++ toString resp.status⟩
    ∧ (applyFetch (runWithRetries retries (fun _ => fetchFromAPI net endpoint))).isError
      = true := by
  have hfetch : fetchFromAPI net endpoint
      = Except.error ⟨"Error", "HTTP error! status: " ++ toString resp.status⟩ := by
    simp [fetchFromAPI, h1, h2]
  have hret := runWithRetries_const_error
    (⟨"Error", "HTTP error! status: " ++ toString resp.status⟩ : JsError)
    (fun _ => fetchFromAPI net endpoint) hfetch retries
  exact ⟨hfetch, hret, by simp [hret, applyFetch]⟩

/-- Witness for C3 amended at the concrete 500 transport with three retries. -/
theorem C3_status_in_message_witness :
    (net500 (BASE_URL ++ "/posts") = TransportResult.response ⟨500, some (Json.arr [])⟩
      ∧ respOk 500 = false)
    ∧ (fetchFromAPI net500 "/posts"
        = Except.error ⟨"Error", "HTTP error! status: 500"⟩
      ∧ runWithRetries 3 (fun _ => fetchFromAPI net500 "/posts")
        = Except.error ⟨"Error", "HTTP error! status: 500"⟩
      ∧ (applyFetch (runWithRetries 3 (fun _ => fetchFromAPI net500 "/posts"))).isError
        = true) :=
  ⟨⟨rfl, by decide⟩,
   C3_status_in_message net500 "/posts" ⟨500, some (Json.arr [])⟩ 3 rfl (by decide)⟩

/-- Counterexample to C4 as stated: a successful response whose body is a bare
JSON number does not match the expected Post list shape, yet the Resource
Client returns it as a success instead of failing with a DecodeError. -/
theorem C4_no_decode_error_counterexample :
    fetchFromAPI netWrongShape "/posts" = Except.ok (Json.num 42)
    ∧ isPostListShape (Json.num 42) = false :=
  ⟨rfl, rfl⟩

/-- C4 amended: for every successful HTTP response whose body is syntactically
valid JSON, the Resource Client returns the parsed JSON as a success with no
shape validation, so a shape mismatch is not detected and no DecodeError
exists; only a syntactically invalid body fails, with a SyntaxError from
response.json(). -/
theorem C4_success_body_unvalidated (net : String → TransportResult)
    (endpoint : String) (resp : HttpResponse)
    (h1 : net (BASE_URL ++ endpoint) = TransportResult.response resp)
    (h2 : respOk resp.status = true) :
    (∀ j, resp.body = some j → fetchFromAPI net endpoint = Except.ok j)
    ∧ (resp.body = none →
        fetchFromAPI net endpoint
          = Except.error ⟨"SyntaxError", "Unexpected token in JSON"⟩) := by
  constructor
  · intro j hj
    simp [fetchFromAPI, h1, h2, hj]
  · intro hj
    simp [fetchFromAPI, h1, h2, hj]

/-- Witness for C4 amended at the concrete wrong-shape transport. -/
theorem C4_success_body_unvalidated_witness :
    (netWrongShape (BASE_URL ++ "/posts")
        = TransportResult.response ⟨200, some (Json.num 42)⟩
      ∧ respOk 200 = true)
    ∧ ((∀ j, (some (Json.num 42) : Option Json) = some j →
          fetchFromAPI netWrongShape "/posts" = Except.ok j)
      ∧ ((some (Json.num 42) : Option Json) = none →
          fetchFromAPI netWrongShape "/posts"
            = Except.error ⟨"SyntaxError", "Unexpected token in JSON"⟩)) :=
  ⟨⟨rfl, by decide⟩,
   C4_success_body_unvalidated netWrongShape "/posts" ⟨200, some (Json.num 42)⟩ rfl (by decide)⟩

/-- JavaScript double-bang truthiness of a possibly-absent numeric identifier:
null and 0 are falsy, every other number is truthy (the NaN case is outside
the integer model). -/
def jsTruthy : Option Int → Bool
  | none => false
  | some n => decide (n ≠ 0)

/-- The enabled gate of the usePost hook in the source: enabled is the double
bang of the identifier, so the query only runs if the id exists. -/
def usePostEnabled (id : Option Int) : Bool := jsTruthy id

/-- The enabled gate of the usePostComments hook in the source: the double
bang of the post identifier. -/
def usePostCommentsEnabled (postId : Option Int) : Bool := jsTruthy postId

/-- Modelled from the spec: the conditional-execution behavior of the
orchestration layer (the caching library, not in the repository) over a
sequence of render opportunities. At each opportunity the gate value is
consulted: when true, the producer runs and its settled outcome is exposed;
when false, nothing runs and the observation is left unchanged. The second
component counts producer invocations; the initial observation is no data, not
loading, no error. -/
def runGatedQuery {E T : Type} (gates : List Bool) (producer : Except E T) :
    QueryObs T × Nat :=
  gates.foldl
    (fun acc g => if g then (applyFetch producer, acc.2 + 1) else acc)
    (⟨none, false, false⟩, 0)

lemma runGatedQuery_foldl_skip {E T : Type} (producer : Except E T) :
    ∀ (gates : List Bool), (∀ g ∈ gates, g = false) →
      ∀ acc : QueryObs T × Nat,
        gates.foldl
          (fun acc g => if g then (applyFetch producer, acc.2 + 1) else acc)
          acc = acc := by
  intro gates
  induction gates with
  | nil => intro _ acc; rfl
  | cons g gs ih =>
    intro h acc
    have hg : g = false := h g (by simp)
    have hrest : ∀ x ∈ gs, x = false := fun x hx => h x (by simp [hx])
    simp [List.foldl, hg, ih hrest acc]

lemma runGatedQuery_allFalse {E T : Type} (gates : List Bool) (producer : Except E T)
    (h : ∀ g ∈ gates, g = false) :
    runGatedQuery gates producer = (⟨none, false, false⟩, 0) :=
  runGatedQuery_foldl_skip producer gates h _

/-- C5: while the enabled gate of a dependent query evaluates to false, as it
does for usePost on an absent identifier, the producer is never invoked (zero
invocations) and the query reports no data, no error and not loading, for as
long as every observed gate value stays false. -/
theorem C5_gated_query_idle (id : Option Int) (gates : List Bool)
    (producer : Except JsError Json)
    (hid : usePostEnabled id = false)
    (hgates : ∀ g ∈ gates, g = usePostEnabled id) :
    runGatedQuery gates producer = (⟨none, false, false⟩, 0) :=
  runGatedQuery_allFalse gates producer (fun g hg => by rw [hgates g hg, hid])

/-- Witness for C5 at the absent identifier over three render opportunities. -/
theorem C5_gated_query_idle_witness :
    (usePostEnabled none = false
      ∧ ∀ g ∈ [false, false, false], g = usePostEnabled none)
    ∧ runGatedQuery [false, false, false]
        (Except.error (⟨"Error", "boom"⟩ : JsError) : Except JsError Json)
      = (⟨none, false, false⟩, 0) :=
  ⟨⟨rfl, by decide⟩,
   C5_gated_query_idle none [false, false, false]
     (Except.error ⟨"Error", "boom"⟩) rfl (by decide)⟩

/-- C8: calling usePost with identifier 0 makes the default enabled gate, the
double bang of the id, evaluate to false, so over any number of render
opportunities the detail query for id 0 stays gated off: its producer is never
invoked and it reports no data, not loading, no error. -/
theorem C8_zero_id_gated_off (n : Nat) (producer : Except JsError Json) :
    usePostEnabled (some 0) = false
    ∧ runGatedQuery (List.replicate n (usePostEnabled (some 0))) producer
      = (⟨none, false, false⟩, 0) :=
  ⟨rfl,
   runGatedQuery_allFalse _ producer
     (fun g hg => by
       have := List.eq_of_mem_replicate hg
       simpa [usePostEnabled, jsTruthy] using this)⟩

/-- The Post record from the data model: id, userId, title, body. -/
structure Post where
  id : Int
  userId : Int
  title : String
  body : String
deriving DecidableEq

/-- Whether the pattern list occurs at the start of the other list. -/
def isPre : List Char → List Char → Bool
  | [], _ => true
  | _ :: _, [] => false
  | a :: as, b :: bs => a == b && isPre as bs

/-- Whether the pattern list occurs contiguously anywhere in the haystack. -/
def containsSub (hay pat : List Char) : Bool :=
  match hay with
  | [] => pat.isEmpty
  | c :: t => isPre pat (c :: t) || containsSub t pat

/-- JavaScript String.prototype.includes: the receiver contains the argument
as a contiguous substring. -/
def jsIncludes (s pat : String) : Bool := containsSub s.toList pat.toList

/-- JavaScript String.prototype.toLowerCase, as a character-wise lowercasing
of the string. -/
def jsToLower (s : String) : String := String.mk (s.toList.map Char.toLower)

/-- The search predicate of the View Layer source: the post's lowercased title
or lowercased body includes the lowercased search term. -/
def postMatches (searchTerm : String) (post : Post) : Bool :=
  jsIncludes (jsToLower post.title) (jsToLower searchTerm)
  || jsIncludes (jsToLower post.body) (jsToLower searchTerm)

/-- The filteredPosts computation of src/components/PostsList.tsx: filter the
fetched posts by the search predicate, falling back to the empty list when the
posts data is still absent. -/
def filteredPosts (posts : Option (List Post)) (searchTerm : String) : List Post :=
  match posts with
  | none => []
  | some ps => ps.filter (postMatches searchTerm)

lemma containsSub_nil_pat (hay : List Char) : containsSub hay [] = true := by
  cases hay with
  | nil => rfl
  | cons c t => simp [containsSub, isPre]

lemma jsIncludes_empty (s : String) : jsIncludes s "" = true := by
  simpa [jsIncludes] using containsSub_nil_pat s.toList

lemma jsToLower_empty : jsToLower "" = "" := rfl

/-- C6: for every fetched posts list and every search term, the filtered result
contains exactly the posts whose lowercased title or lowercased body includes
the lowercased term as a contiguous substring, and the empty search term keeps
every post. -/
theorem C6_search_filter_exact (posts : List Post) (searchTerm : String) (p : Post) :
    (p ∈ filteredPosts (some posts) searchTerm ↔
      p ∈ posts
      ∧ (jsIncludes (jsToLower p.title) (jsToLower searchTerm) = true
        ∨ jsIncludes (jsToLower p.body) (jsToLower searchTerm) = true))
    ∧ filteredPosts (some posts) "" = posts := by
  constructor
  · simp [filteredPosts, List.mem_filter, postMatches, Bool.or_eq_true]
  · have hall : ∀ q ∈ posts, postMatches "" q = true := by
      intro q _
      simp [postMatches, jsToLower_empty, jsIncludes_empty]
    simpa [filteredPosts] using List.filter_eq_self.mpr hall

/-- The selection-toggle handler of src/components/PostsList.tsx: clicking the
already selected post clears the selection, clicking any other post selects
it. -/
def handlePostClick (selectedPostId : Option Int) (post : Post) : Option Int :=
  if selectedPostId = some post.id then none else some post.id

/-- A cache entry for a key: the stored data and when it was last updated. -/
structure CacheEntry (T : Type) where
  data : T
  lastUpdated : Nat

/-- Modelled from the spec: the staleness policy of the orchestration layer
(the caching library, not in the repository): data is fresh while its age is
within the time-to-live. -/
def isFresh {T : Type} (now ttl : Nat) (entry : CacheEntry T) : Bool :=
  decide (now - entry.lastUpdated ≤ ttl)

/-- Modelled from the spec: whether accessing a key issues a network call:
a missing entry always fetches, a present entry fetches only when stale; fresh
data is served without a network call. -/
def needsFetch {T : Type} (entry : Option (CacheEntry T)) (now ttl : Nat) : Bool :=
  match entry with
  | none => true
  | some e => ! isFresh now ttl e

/-- C7: clicking a post that is already selected clears the selection, clicking
a post while a different or no post is selected selects it, and accessing the
detail of a post whose cache entry is still fresh issues no network call. -/
theorem C7_toggle_selection (sel : Option Int) (post : Post)
    (entry : CacheEntry Post) (now ttl : Nat)
    (hfresh : isFresh now ttl entry = true) :
    handlePostClick (some post.id) post = none
    ∧ (sel ≠ some post.id → handlePostClick sel post = some post.id)
    ∧ needsFetch (some entry) now ttl = false := by
  refine ⟨by simp [handlePostClick], ?_, by simp [needsFetch, hfresh]⟩
  intro hne
  simp [handlePostClick, hne]

/-- A concrete post used by closed witness statements. -/
def samplePost : Post := ⟨1, 1, "alpha", "beta"⟩

/-- Witness for C7 with no current selection and a cache entry well inside the
freshness window. -/
theorem C7_toggle_selection_witness :
    isFresh 100 300 (⟨samplePost, 50⟩ : CacheEntry Post) = true
    ∧ (handlePostClick (some samplePost.id) samplePost = none
      ∧ ((none : Option Int) ≠ some samplePost.id →
          handlePostClick none samplePost = some samplePost.id)
      ∧ needsFetch (some (⟨samplePost, 50⟩ : CacheEntry Post)) 100 300 = false) :=
  ⟨by decide,
   C7_toggle_selection none samplePost ⟨samplePost, 50⟩ 100 300 (by decide)⟩

/-- The rendered output of a PostCard: the class of the card container, the
click handler bound in the container, and the displayed title, body and footer
texts. -/
structure RenderedCard (R : Type) where
  className : String
  clickHandler : Unit → Option R
  title : String
  body : String
  footer : String

/-- The PostCard component of src/components/PostCard.tsx. It receives the
props post, onClick and isSelected but destructures only post and onClick, so
the isSelected prop plays no part in the output. -/
def PostCard {R : Type} (post : Post) (onClick : Option (Post → R))
    (isSelected : Option Bool) : RenderedCard R :=
  { className := "cursor-pointer rounded-lg border p-4 transition-shadow hover:shadow-md"
  , clickHandler := fun _ => onClick.map (fun f => f post)
  , title := post.title
  , body := post.body
  , footer := "User ID: " ++ toString post.userId ++ " | Post ID: " ++ toString post.id }

/-- C10: the rendered output of PostCard is independent of its isSelected prop:
for any fixed post and onClick handler, any two values of isSelected, including
the present and absent cases, produce identical output. -/
theorem C10_postcard_ignores_selection (R : Type) (post : Post)
    (onClick : Option (Post → R)) (s1 s2 : Option Bool) :
    PostCard post onClick s1 = PostCard post onClick s2 := rfl
